import Mathlib

/-!
A shallow embedding of the AfreecaTV extractor module
(`src/yt_dlp/extractor/afreecatv.py`) and proofs about its behaviour.

The embedding covers:
* the VOD resolver `AfreecaTVIE._real_extract` — the bounded two-attempt
  view-info negotiation loop, the record-construction code that follows it
  (multi-part branch, single-item branch with the `mp4:` split), and the
  per-file upload-date / format-id / formats computation;
* the live resolver `AfreecaTVLiveIE._real_extract` — channel lookup,
  broadcast-number and password checks, and the quality-tier loop.

Network responses are supplied as explicit inputs (oracles), so every
definition is executable.  Framework helpers (`url_or_none`,
`determine_ext`, `unified_strdate`, `date_from_str`, `update_url_query`,
`qualities`) are part of the surrounding yt-dlp code base and are not
present under `src/`; they are modelled from the spec, each marked as such.
-/

/-- Python `str.strip()` on a string: drop whitespace from both ends. -/
def pyStrip (s : String) : String :=
  String.mk (((s.data.dropWhile Char.isWhitespace).reverse.dropWhile Char.isWhitespace).reverse)

/-- Is `p` a prefix of `l`? -/
def listStartsWith : List Char → List Char → Bool
  | _, [] => true
  | [], _ :: _ => false
  | a :: as, b :: bs => a == b && listStartsWith as bs

/-- Python `s.startswith(p)`. -/
def strStartsWith (s p : String) : Bool :=
  listStartsWith s.data p.data

/-- Does `l` contain `sub` as a contiguous sublist? -/
def containsList (sub : List Char) : List Char → Bool
  | [] => listStartsWith [] sub
  | c :: rest => listStartsWith (c :: rest) sub || containsList sub rest

/-- Does `s` contain `sub` as a substring?  (Python `sub in s`.) -/
def containsSub (s sub : String) : Bool :=
  containsList sub.data s.data

/-- Split off the part of `l` before the first occurrence of `sep` and the
part after it; `none` when `sep` does not occur. -/
def findSplit (sep : List Char) : List Char → Option (List Char × List Char)
  | [] => none
  | c :: rest =>
    if listStartsWith (c :: rest) sep then some ([], (c :: rest).drop sep.length)
    else
      match findSplit sep rest with
      | none => none
      | some (pre, post) => some (c :: pre, post)

/-- Fuel-driven splitting on every non-overlapping occurrence of `sep`,
left to right (the fuel only bounds the number of pieces). -/
def pySplitGo (sep : List Char) : Nat → List Char → List (List Char)
  | 0, l => [l]
  | fuel + 1, l =>
    match findSplit sep l with
    | none => [l]
    | some (pre, post) => pre :: pySplitGo sep fuel post

/-- Python `s.split(sep)` for a non-empty separator. -/
def pySplit (s sep : String) : List String :=
  (pySplitGo sep.data (s.data.length + 1) s.data).map String.mk

/-- Does the character occur in the list? -/
def containsChar (l : List Char) (c : Char) : Bool :=
  l.any (· == c)

/-- The part of `l` before the first occurrence of `c` (all of `l` when
`c` does not occur) — Python `l.partition(c)[0]`. -/
def beforeFirst (c : Char) (l : List Char) : List Char :=
  l.takeWhile (fun x => !(x == c))

/-- The part of `l` after the last occurrence of `c` (all of `l` when `c`
does not occur) — Python `l.rpartition(c)[2]`. -/
def afterLast (c : Char) (l : List Char) : List Char :=
  (l.reverse.takeWhile (fun x => !(x == c))).reverse

/-- Numeric value of a list of decimal digit characters. -/
def digitsToNat (l : List Char) : Nat :=
  l.foldl (fun acc c => acc * 10 + (c.toNat - 48)) 0

/-- A calendar date as produced by Python `datetime.date`. -/
structure YMDDate where
  year : Nat
  month : Nat
  day : Nat
  deriving DecidableEq, Repr

def isLeap (y : Nat) : Bool :=
  (y % 4 = 0 && y % 100 ≠ 0) || y % 400 = 0

def daysInMonth (y m : Nat) : Nat :=
  if m = 2 then (if isLeap y then 29 else 28)
  else if m = 4 || m = 6 || m = 9 || m = 11 then 30
  else 31

/-- Modelled from the spec: the framework helpers `unified_strdate` /
`date_from_str` (not under `src/`) applied to an 8-digit token.  The token
parses with format `%Y%m%d`; parsing succeeds exactly when the token is a
real calendar date (month 1–12, valid day, year at least 1). -/
def parseDate8 (s : String) : Option YMDDate :=
  let cs := s.data
  if cs.length = 8 && cs.all Char.isDigit then
    let y := digitsToNat (cs.take 4)
    let m := digitsToNat ((cs.drop 4).take 2)
    let d := digitsToNat (cs.drop 6)
    if 1 ≤ y && 1 ≤ m && m ≤ 12 && 1 ≤ d && d ≤ daysInMonth y m then
      some ⟨y, m, d⟩
    else none
  else none

/-- Modelled from the spec: `unified_strdate` (not under `src/`) restricted
to 8-digit tokens — it returns the token normalised to `%Y%m%d` (identical
to the input here) when it is a valid calendar date, else `None`. -/
def unifiedStrdate8 (s : String) : Option String :=
  if (parseDate8 s).isSome then some s else none

/-- The `_search_regex(r'^(\d{8})_', key, ...)` call of the source
(line 260): the first 8 characters of `key` when they are all digits and
are followed by an underscore; `None` otherwise. -/
def searchDate8 (key : String) : Option String :=
  let cs := key.data
  if (cs.take 8).all Char.isDigit && cs.length ≥ 9 && (cs.drop 8).head? = some '_' then
    some (String.mk (cs.take 8))
  else none

/-- The upload-date computation of the source (lines 260–268): extract the
leading 8-digit token, parse it, and discard the parsed date when its year
lies outside [2000, 2100). -/
def uploadDateOf (key : String) : Option String :=
  match searchDate8 key with
  | none => none
  | some d8 =>
    match unifiedStrdate8 d8 with
    | none => none
    | some ud =>
      match parseDate8 ud with
      | none => none
      | some dt => if dt.year < 2000 || 2100 ≤ dt.year then none else some ud

/-- Modelled from the spec: the framework helper `url_or_none` (not under
`src/`) — strip the value and keep it only when it starts with a known
scheme followed by `://`, or is protocol-relative (`//`). -/
def urlSchemeOk (t : String) : Bool :=
  strStartsWith t "//" ||
    (["http", "https", "rtmp", "rtmpt", "rtmpe", "rtmps", "rtmpte", "rtmpts",
      "rtmfp", "rtsp", "rtsps", "rtspu", "mms", "ftp", "ftps"].any
      (fun sch => strStartsWith t (sch ++ "://")))

/-- Modelled from the spec: `url_or_none` — `None` (also for a missing or
null field), or the stripped URL when its scheme is recognised. -/
def urlOrNone (s : Option String) : Option String :=
  match s with
  | none => none
  | some str =>
    let t := pyStrip str
    if urlSchemeOk t then some t else none

/-- Modelled from the spec: the framework helper `determine_ext` (not under
`src/`) — the extension is the part of the URL (before any query string)
after the last dot, accepted when alphanumeric; `m3u8` marks a segmented
manifest. -/
def determineExt (url : String) : String :=
  if !(containsChar url.data ('.')) then "unknown_video"
  else
    let guess := String.mk (afterLast ('.') (beforeFirst ('?') url.data))
    if guess ≠ "" && guess.data.all Char.isAlphanum then guess
    else "unknown_video"

/-- One element of the view-info response's `files` list (a JSON object
with the fields the source reads: `file`, `file_info_key`, `duration`).
`file` is `none` when the field is null/missing; `duration` is the value
already passed through `int_or_none`. -/
structure FileElement where
  file : Option String
  file_info_key : String
  duration : Option Int
  deriving DecidableEq, Repr

/-- Python `repr` of an optional string value (quoting ignored beyond the
surrounding quotes; only nonemptiness is ever relied upon). -/
def pyReprOptStr : Option String → String
  | none => "None"
  | some s => "\x27" ++ s ++ "\x27"

def pyReprOptInt : Option Int → String
  | none => "None"
  | some i => toString i

/-- The rendering of a file-element dict's fields after the opening
brace. -/
def pyStrElemRest (fe : FileElement) : String :=
  "\x27file\x27: " ++ pyReprOptStr fe.file ++
    ", \x27file_info_key\x27: \x27" ++ fe.file_info_key ++ "\x27" ++
    ", \x27duration\x27: " ++ pyReprOptInt fe.duration ++ "\x7d"

/-- Python `str()` of a file-element dict, as taken by the source at line
229 (`str(video_element)`).  A dict's string form always starts with an
opening brace; the exact field rendering beyond that is irrelevant to the
code under study. -/
def pyStrElem (fe : FileElement) : String :=
  "\x7b" ++ pyStrElemRest fe

/-- The `data` object of one view-info response, with the fields the source
reads.  `code` is `traverse_obj(data, ('code', {int}))`; `files` elements
may be JSON null (the source checks `data['files'][-1] is None`). -/
structure ViewData where
  code : Option Int
  flag : String
  station_no : Int
  bbs_no : Int
  files : List (Option FileElement)
  title : String
  writer_nick : String
  bj_id : String
  total_file_duration : Option Int
  thumb : String
  deriving DecidableEq, Repr

/-- One HTTP request issued by the VOD loop: the view-info endpoint with a
Referer header and a urlencoded POST body.  The source (lines 184–189)
passes no URL query parameters to this call. -/
structure ViewRequest where
  url : String
  referer : String
  body : List (String × String)
  deriving DecidableEq, Repr

/-- The view-info request of lines 184–189: constant endpoint and body. -/
def stdReq (pageUrl vid : String) : ViewRequest :=
  { url := "https://api.m.afreecatv.com/station/video/a/view"
    referer := pageUrl
    body := [("nTitleNo", vid), ("nApiLevel", "10")] }

/-- The `query` dict built at lines 192–200 (as an ordered association
list).  It records the `partialView` / `adultView` modifiers but is never
attached to any request by the source. -/
def mkQuery (vid : String) (d : ViewData) (pv av : Bool) : List (String × String) :=
  [("nTitleNo", vid), ("nStationNo", toString d.station_no), ("nBbsNo", toString d.bbs_no)]
    ++ (if pv then [("partialView", "SKIP_ADULT")] else [])
    ++ (if av then [("adultView", "ADULT_VIEW")] else [])

/-- The expected / fatal failures of the VOD resolver, one constructor per
`raise` site of `_real_extract`:
* `notFound` — `'The VOD does not exist'` (response code -6221, line 191);
* `restricted` — the age-gate message `'Only users older than 19 are able
  to watch this video. Provide account credentials to download this
  content.'` (flag `ADULT` after the adult retry, lines 212–216);
* `unresolvable` — `'%s said: %s'` surfacing an unexpected flag text
  (line 218);
* `exhausted` — `'Unable to download video info'` (the for-else, line 222);
* `videoGone` — `'Video %s does not exist'` (last file element is null,
  lines 225–227). -/
inductive Failure where
  | notFound
  | restricted
  | unresolvable (flagText : String)
  | exhausted
  | videoGone
  deriving DecidableEq, Repr

/-- Which failures the spec's taxonomy calls `Unresolvable`: the
unexpected-flag failure and the fatal loop-exhaustion failure. -/
def Failure.isUnresolvable : Failure → Bool
  | .unresolvable _ => true
  | .exhausted => true
  | _ => false

inductive LoopOutcome where
  | succeeded (d : ViewData)
  | failedWith (f : Failure)
  deriving DecidableEq, Repr

/-- Trace of one run of the view-info loop: the requests issued, the
(dead) query dicts built, the number of warnings reported, and how the
loop ended. -/
structure LoopTrace where
  requests : List ViewRequest
  queries : List (List (String × String))
  warnings : Nat
  outcome : LoopOutcome
  deriving DecidableEq, Repr

/-- The body of `for _ in range(2)` (lines 183–222).  `idx` numbers the
attempt (each attempt downloads `resp idx`), `fuel` is the remaining
attempt budget, `pv` / `av` are `partial_view` / `adult_view`.  Running
out of fuel is the loop's `else:` clause. -/
def vodLoopAux (pageUrl vid : String) (resp : Nat → ViewData) :
    Nat → Nat → Bool → Bool → LoopTrace
  | _, 0, _, _ => { requests := [], queries := [], warnings := 0, outcome := .failedWith .exhausted }
  | idx, fuel + 1, pv, av =>
    let d := resp idx
    let req := stdReq pageUrl vid
    if d.code = some (-6221 : Int) then
      { requests := [req], queries := [], warnings := 0, outcome := .failedWith .notFound }
    else
      let q := mkQuery vid d pv av
      if d.flag = "SUCCEED" then
        { requests := [req], queries := [q], warnings := 0, outcome := .succeeded d }
      else if d.flag = "PARTIAL_ADULT" then
        let t := vodLoopAux pageUrl vid resp (idx + 1) fuel true av
        { requests := req :: t.requests, queries := q :: t.queries,
          warnings := t.warnings + 1, outcome := t.outcome }
      else if d.flag = "ADULT" then
        if !av then
          let t := vodLoopAux pageUrl vid resp (idx + 1) fuel pv true
          { requests := req :: t.requests, queries := q :: t.queries,
            warnings := t.warnings, outcome := t.outcome }
        else
          { requests := [req], queries := [q], warnings := 0, outcome := .failedWith .restricted }
      else
        { requests := [req], queries := [q], warnings := 0,
          outcome := .failedWith (.unresolvable d.flag) }

/-- The whole view-info negotiation loop: two attempts, both flags
initially false. -/
def vodLoop (pageUrl vid : String) (resp : Nat → ViewData) : LoopTrace :=
  vodLoopAux pageUrl vid resp 0 2 false false

/-- One format dict as built for a progressive file or returned by the
manifest expander. -/
structure Format where
  url : String
  format_id : String
  deriving DecidableEq, Repr

/-- The `common_entry` dict of lines 238–242. -/
structure Common where
  uploader : String
  uploader_id : String
  thumbnail : String
  deriving DecidableEq, Repr

/-- One output item of the multi-part branch (lines 283–291). -/
structure Entry where
  uploader : String
  uploader_id : String
  thumbnail : String
  id : String
  title : String
  upload_date : Option String
  duration : Option Int
  formats : List Format
  deriving DecidableEq, Repr

/-- The multi-part (`multi_video`) result of lines 292–297. -/
structure MultiInfo where
  uploader : String
  uploader_id : String
  thumbnail : String
  id : String
  title : String
  duration : Option Int
  entries : List Entry
  deriving DecidableEq, Repr

/-- The single-item result of lines 299–321.  The m3u8 sub-branch fills
`formats`; the `mp4:` split sub-branch fills `url` / `ext` / `play_path`
and sets `rtmp_live`. -/
structure SingleInfo where
  id : String
  title : String
  uploader : String
  uploader_id : String
  duration : Option Int
  thumbnail : String
  formats : List Format
  url : Option String
  ext : Option String
  play_path : Option String
  rtmp_live : Bool
  deriving DecidableEq, Repr

/-- The formats computed for one file URL (lines 271–280): expand a
segmented manifest through the external collaborator `m3`, otherwise one
progressive source. -/
def fmtOf (m3 : String → List Format) (u : String) : List Format :=
  if determineExt u = "m3u8" then m3 u else [{ url := u, format_id := "http" }]

/-- The `file_info` dict built for one kept file (lines 283–290). -/
def mkEntry (vid title : String) (one : Bool) (com : Common) (m3 : String → List Format)
    (fe : FileElement) (u : String) (n : Nat) : Entry :=
  { uploader := com.uploader
    uploader_id := com.uploader_id
    thumbnail := com.thumbnail
    id := if fe.file_info_key ≠ "" then fe.file_info_key else vid ++ "_" ++ toString n
    title := if one then title else title ++ " (part " ++ toString n ++ ")"
    upload_date := uploadDateOf fe.file_info_key
    duration := fe.duration
    formats := fmtOf m3 u }

/-- The per-file loop of the multi-part branch (lines 255–291), enumerated
from `n` (the source starts at 1).  `none` is an uncaught crash: a null
file element reaches `file_element['file']`.  Files with an invalid URL
are skipped; files with no formats are skipped unless `inf`
(`ignore_no_formats`) is set. -/
def processFiles (vid title : String) (one : Bool) (com : Common)
    (m3 : String → List Format) (inf : Bool) :
    List (Option FileElement) → Nat → Option (List Entry)
  | [], _ => some []
  | none :: _, _ => none
  | some fe :: rest, n =>
    match urlOrNone fe.file with
    | none => processFiles vid title one com m3 inf rest (n + 1)
    | some fileUrl =>
      if (fmtOf m3 fileUrl).isEmpty && !inf then
        processFiles vid title one com m3 inf rest (n + 1)
      else
        (processFiles vid title one com m3 inf rest (n + 1)).map
          (mkEntry vid title one com m3 fe fileUrl n :: ·)

/-- The outcome of a whole `_real_extract` run.  `crashed` marks uncaught
exceptions (an `IndexError` on an empty file list, a `TypeError` on a null
file element inside the loop, the `ValueError` of an unpacking
`video_url.split('mp4:')` that does not yield exactly two parts). -/
inductive ExtractResult where
  | failed (f : Failure)
  | crashed (msg : String)
  | multiRec (m : MultiInfo)
  | singleRec (s : SingleInfo)
  deriving DecidableEq, Repr

def ExtractResult.isMulti : ExtractResult → Bool
  | .multiRec _ => true
  | _ => false

def ExtractResult.isSingle : ExtractResult → Bool
  | .singleRec _ => true
  | _ => false

def ExtractResult.isFailed : ExtractResult → Bool
  | .failed _ => true
  | _ => false

def ExtractResult.isCrashed : ExtractResult → Bool
  | .crashed _ => true
  | _ => false

/-- The entries of a multi-part result, if the run produced one. -/
def resultEntries : ExtractResult → Option (List Entry)
  | .multiRec m => some m.entries
  | _ => none

def resultEntryIds (r : ExtractResult) : Option (List String) :=
  (resultEntries r).map (List.map Entry.id)

def resultEntryCount (r : ExtractResult) : Option Nat :=
  (resultEntries r).map List.length

def resultEntryFormats (r : ExtractResult) : Option (List (List Format)) :=
  (resultEntries r).map (List.map Entry.formats)

/-- The `common_entry` fields of a response (lines 233–242). -/
def commonOf (d : ViewData) : Common :=
  { uploader := d.writer_nick, uploader_id := d.bj_id, thumbnail := d.thumb }

/-- The entries computation of the multi-part branch applied to a
response: title, `one`, common fields and the files list all come from
`d`, enumeration starts at 1. -/
def entriesCalc (vid : String) (d : ViewData) (m3 : String → List Format) (inf : Bool) :
    Option (List Entry) :=
  processFiles vid d.title (d.files.length == 1) (commonOf d) m3 inf d.files 1

/-- The top-level record of the multi-part branch (lines 244–249 and
292–297) around a given entries list. -/
def mkMultiInfo (vid : String) (d : ViewData) (es : List Entry) : MultiInfo :=
  { uploader := d.writer_nick
    uploader_id := d.bj_id
    thumbnail := d.thumb
    id := vid
    title := d.title
    duration := d.total_file_duration
    entries := es }

/-- The single-item branch (lines 299–321), taken when `video_url` is
empty (falsy).  An m3u8 `video_url` goes to the manifest expander; any
other is split on `mp4:` into `(app, playpath)` — Python unpacking
requires the split to yield exactly two parts, anything else raises an
uncaught `ValueError`. -/
def singleBranch (vid : String) (d : ViewData) (videoUrl : String)
    (m3 : String → List Format) : ExtractResult :=
  if determineExt videoUrl = "m3u8" then
    .singleRec { id := vid, title := d.title, uploader := d.writer_nick,
                 uploader_id := d.bj_id, duration := d.total_file_duration,
                 thumbnail := d.thumb, formats := m3 videoUrl,
                 url := none, ext := none, play_path := none, rtmp_live := false }
  else
    match pySplit videoUrl "mp4:" with
    | [app, playpath] =>
      .singleRec { id := vid, title := d.title, uploader := d.writer_nick,
                   uploader_id := d.bj_id, duration := d.total_file_duration,
                   thumbnail := d.thumb, formats := [],
                   url := some app, ext := some "flv",
                   play_path := some ("mp4:" ++ playpath), rtmp_live := true }
    | _ => .crashed "ValueError: video_url.split did not yield two values"

/-- Record construction after a successful loop (lines 224–321):
`video_element = data['files'][-1]` (crash when the list is empty, the
`'Video %s does not exist'` failure when it is null), then
`video_url = str(video_element).strip()`; a truthy `video_url` selects the
multi-part branch, an empty one the single-item branch. -/
def buildRecord (vid : String) (d : ViewData) (m3 : String → List Format)
    (inf : Bool) : ExtractResult :=
  match d.files.getLast? with
  | none => .crashed "IndexError: files is empty"
  | some none => .failed .videoGone
  | some (some ve) =>
    let videoUrl := pyStrip (pyStrElem ve)
    if videoUrl ≠ "" then
      match entriesCalc vid d m3 inf with
      | none => .crashed "TypeError: null file element"
      | some es => .multiRec (mkMultiInfo vid d es)
    else
      singleBranch vid d videoUrl m3

/-- A whole `AfreecaTVIE._real_extract` run over a response oracle: the
loop trace together with the final result. -/
structure ExtractRun where
  trace : LoopTrace
  result : ExtractResult

/-- Map the loop's outcome to the run's final result: a successful loop
goes on to record construction, a failure propagates. -/
def extractResultOf (vid : String) (m3 : String → List Format) (inf : Bool) :
    LoopOutcome → ExtractResult
  | .succeeded d => buildRecord vid d m3 inf
  | .failedWith f => .failed f

/-- `AfreecaTVIE._real_extract` (lines 178–321) with the network modelled
as the oracle `resp` (attempt number to view-info response) and the
manifest expander as `m3`. -/
def realExtract (pageUrl vid : String) (resp : Nat → ViewData)
    (m3 : String → List Format) (inf : Bool) : ExtractRun :=
  ⟨vodLoop pageUrl vid resp,
   extractResultOf vid m3 inf (vodLoop pageUrl vid resp).outcome⟩

/-- Spec-side predicate for the claim about the multi-part branch's output
count: a file entry is kept when its URL is valid and it either yields at
least one stream source or the permissive zero-format option is set. -/
def specKept (m3 : String → List Format) (inf : Bool) (fe : FileElement) : Bool :=
  match urlOrNone fe.file with
  | none => false
  | some u => !(fmtOf m3 u).isEmpty || inf

/-- Spec-side list of synthetic identifiers of the kept entries, in order:
each kept entry's id is its key when the key is non-empty, and otherwise
the video id followed by an underscore and the entry's position (the
source enumerates from 1, counting every input entry). -/
def specIds (vid : String) (m3 : String → List Format) (inf : Bool) :
    List FileElement → Nat → List String
  | [], _ => []
  | fe :: rest, n =>
    if specKept m3 inf fe then
      (if fe.file_info_key ≠ "" then fe.file_info_key else vid ++ "_" ++ toString n)
        :: specIds vid m3 inf rest (n + 1)
    else specIds vid m3 inf rest (n + 1)

/-! ### The live resolver (`AfreecaTVLiveIE._real_extract`, lines 352–421) -/

/-- Python truthiness of an optional string: `None` and the empty string
are falsy. -/
def falsyO : Option String → Bool
  | none => true
  | some s => s = ""

/-- Python `a or b` on two optional strings. -/
def pyOrOpt (a b : Option String) : Option String :=
  if falsyO a then b else a

/-- Python `a or b` where the fallback is a plain string. -/
def pyOrStr (a : Option String) (b : String) : String :=
  match a with
  | none => b
  | some s => if s = "" then b else s

/-- Turn a falsy optional string into `none` (for `if not aid: continue`
style checks). -/
def falsyToNone (a : Option String) : Option String :=
  match a with
  | none => none
  | some s => if s = "" then none else some s

/-- The `CHANNEL` object of the live-channel response, with the fields the
source reads. -/
structure ChannelInfo where
  BJID : Option String
  BNO : Option String
  BPWD : Option String
  RMD : Option String
  CDN : Option String
  TITLE : Option String
  BJNICK : Option String
  deriving DecidableEq, Repr

/-- The all-`none` channel object (`info.get('CHANNEL') or {}` when the
lookup failed or came back empty). -/
def emptyChannel : ChannelInfo :=
  { BJID := none, BNO := none, BPWD := none, RMD := none, CDN := none,
    TITLE := none, BJNICK := none }

/-- The whole live-channel response; `CHANNEL` may be absent. -/
structure ChannelWrap where
  CHANNEL : Option ChannelInfo
  deriving DecidableEq, Repr

/-- `info.get('CHANNEL') or {}` over the non-fatal download result
(line 356–358): a failed lookup yields `none`, and any missing layer
degrades to the empty channel object. -/
def channelInfoOf (chResp : Option ChannelWrap) : ChannelInfo :=
  (chResp.bind ChannelWrap.CHANNEL).getD emptyChannel

/-- The station-status response (best-effort, lines 408–411);
`broadStartTs` carries `unified_timestamp(station_info.get('broad_start'))`
already parsed, as the claims never inspect it. -/
structure StationInfo where
  station_title : Option String
  station_name : Option String
  broadStartTs : Option Int
  deriving DecidableEq, Repr

def emptyStation : StationInfo :=
  { station_title := none, station_name := none, broadStartTs := none }

/-- The errors of the live resolver: no broadcast number (line 362–363)
and password-protected without `--video-password` (lines 364–367). -/
inductive LiveError where
  | notLive
  | passwordRequired
  deriving DecidableEq, Repr

/-- One access-token request of the quality loop (lines 372–384). -/
structure AidReq where
  bno : String
  quality : String
  pwd : Option String
  deriving DecidableEq, Repr

/-- One CDN-assignment request of the quality loop (lines 389–397). -/
structure StreamReq where
  base : String
  returnType : String
  broadKey : String
  deriving DecidableEq, Repr

/-- One live stream format (lines 399–406). -/
structure LiveFormat where
  format_id : String
  url : String
  ext : String
  protocol : String
  quality : Int
  deriving DecidableEq, Repr

/-- The normalized live record (lines 413–421). -/
structure LiveRecord where
  id : String
  title : Option String
  uploader : Option String
  uploader_id : String
  timestamp : Option Int
  formats : List LiveFormat
  is_live : Bool
  deriving DecidableEq, Repr

/-- The network responses the live resolver consumes beyond the channel
lookup: per-quality `CHANNEL.AID` of the access-token call, per-quality
`view_url` of the CDN-assignment call (both `none` on a failed or empty
non-fatal download), and the station-status response. -/
structure LiveOracles where
  aidResp : String → Option String
  streamViewUrl : String → Option String
  station : Option StationInfo

/-- `_QUALITIES` (line 350), lowest to highest. -/
def qualitiesList : List String := ["sd", "hd", "hd2k", "original"]

/-- Modelled from the spec: the framework helper `qualities` (not under
`src/`) — the index of the tier in the fixed list, `-1` when absent. -/
def qualityRank (q : String) : Int :=
  match qualitiesList.indexOf? q with
  | some i => (i : Int)
  | none => -1

/-- Modelled from the spec: the framework helper `update_url_query` (not
under `src/`) — attach the access token as an `aid` query parameter. -/
def updateUrlQuery (u : String) (aid : String) : String :=
  u ++ (if containsSub u "?" then "&" else "?") ++ "aid=" ++ aid

/-- Accumulated effect of the quality-tier loop. -/
structure TierAcc where
  aidRequests : List AidReq
  streamRequests : List StreamReq
  formats : List LiveFormat
  deriving Repr

/-- The `for quality_str in self._QUALITIES` loop (lines 371–406): one
access-token request per tier; a falsy AID skips the tier; otherwise one
CDN-assignment request, and a truthy `view_url` contributes a format with
the token attached. -/
def tierLoop (bnoS : String) (password : Option String) (ch : ChannelInfo)
    (orcl : LiveOracles) : List String → TierAcc
  | [] => { aidRequests := [], streamRequests := [], formats := [] }
  | q :: rest =>
    let t := tierLoop bnoS password ch orcl rest
    let aReq : AidReq := { bno := bnoS, quality := q, pwd := password }
    match falsyToNone (orcl.aidResp q) with
    | none => { aidRequests := aReq :: t.aidRequests,
                streamRequests := t.streamRequests, formats := t.formats }
    | some aid =>
      let sReq : StreamReq :=
        { base := pyOrStr ch.RMD "https://livestream-manager.afreecatv.com"
          returnType := ch.CDN.getD "gcp_cdn"
          broadKey := bnoS ++ "-common-" ++ q ++ "-hls" }
      match falsyToNone (orcl.streamViewUrl q) with
      | none => { aidRequests := aReq :: t.aidRequests,
                  streamRequests := sReq :: t.streamRequests, formats := t.formats }
      | some vu =>
        { aidRequests := aReq :: t.aidRequests
          streamRequests := sReq :: t.streamRequests
          formats := { format_id := q, url := updateUrlQuery vu aid, ext := "mp4",
                       protocol := "m3u8", quality := qualityRank q } :: t.formats }

/-- A whole live-resolver run: the tier requests issued and the result. -/
structure LiveRun where
  aidRequests : List AidReq
  streamRequests : List StreamReq
  result : Except LiveError LiveRecord

/-- `AfreecaTVLiveIE._real_extract` (lines 352–421).  `bidUrl` / `bnoUrl`
are the broadcaster handle and optional broadcast number matched from the
URL, `password` is `--video-password`, `chResp` the non-fatal channel
lookup. -/
def liveExtract (bidUrl : String) (bnoUrl : Option String) (password : Option String)
    (chResp : Option ChannelWrap) (orcl : LiveOracles) : LiveRun :=
  let ch := channelInfoOf chResp
  let bid := pyOrStr ch.BJID bidUrl
  let bno := pyOrOpt ch.BNO bnoUrl
  if falsyO bno then
    { aidRequests := [], streamRequests := [], result := .error .notLive }
  else if ch.BPWD = some "Y" && password.isNone then
    { aidRequests := [], streamRequests := [], result := .error .passwordRequired }
  else
    let bnoS := bno.getD ""
    let acc := tierLoop bnoS password ch orcl qualitiesList
    let st := orcl.station.getD emptyStation
    { aidRequests := acc.aidRequests
      streamRequests := acc.streamRequests
      result := .ok
        { id := bnoS
          title := pyOrOpt ch.TITLE st.station_title
          uploader := pyOrOpt ch.BJNICK st.station_name
          uploader_id := bid
          timestamp := st.broadStartTs
          formats := acc.formats
          is_live := true } }

/-- The id of a successfully resolved live record. -/
def resultId : Except LiveError LiveRecord → Option String
  | .ok r => some r.id
  | .error _ => none

/-- The uploader id of a successfully resolved live record. -/
def resultUploaderId : Except LiveError LiveRecord → Option String
  | .ok r => some r.uploader_id
  | .error _ => none

/-! ### Concrete inputs used by witnesses and counterexamples -/

/-- A template view-info response. -/
def baseView : ViewData :=
  { code := none, flag := "SUCCEED", station_no := 11, bbs_no := 22, files := [],
    title := "title", writer_nick := "nick", bj_id := "bj",
    total_file_duration := some 100, thumb := "https://img.example.com/t.jpg" }

/-- A manifest expander that always comes back empty. -/
def noM3 : String → List Format := fun _ => []

def c1Resp : Nat → ViewData := fun _ => { baseView with flag := "ADULT" }

def c2fe : FileElement :=
  { file := some "https://example.com/video.mp4", file_info_key := "", duration := some 5 }

def c2Resp : Nat → ViewData := fun _ => { baseView with files := [some c2fe] }

def c3Resp : Nat → ViewData := fun _ => { baseView with flag := "PARTIAL_ADULT" }

/-- First response partially restricted, retried response successful. -/
def c3OnceResp : Nat → ViewData :=
  fun n => if n = 0 then { baseView with flag := "PARTIAL_ADULT" } else baseView

def c4fe : FileElement :=
  { file := some "not a url", file_info_key := "k4", duration := none }

def c4Resp : Nat → ViewData := fun _ => { baseView with files := [some c4fe] }

def c5fe : FileElement :=
  { file := some "rtmp://example.com/app/mp4:video0", file_info_key := "k5", duration := none }

def c5Resp : Nat → ViewData := fun _ => { baseView with files := [some c5fe] }

def c6fe1 : FileElement :=
  { file := some "https://example.com/a.mp4", file_info_key := "", duration := some 10 }

def c6fe2 : FileElement :=
  { file := some "not a url", file_info_key := "k2", duration := none }

def c6Resp : Nat → ViewData := fun _ => { baseView with files := [some c6fe1, some c6fe2] }

def c8Orcl : LiveOracles :=
  { aidResp := fun _ => some "AIDTOKEN",
    streamViewUrl := fun _ => some "https://cdn.example.com/x.m3u8",
    station := none }

def c9Orcl : LiveOracles :=
  { aidResp := fun _ => none, streamViewUrl := fun _ => none, station := none }

def c10fe : FileElement :=
  { file := none, file_info_key := "x", duration := none }

def c10com : Common :=
  { uploader := "u", uploader_id := "i", thumbnail := "t" }

/-! ### Helper lemmas -/

theorem pyStrip_ne_empty (s : String) (c : Char) (l : List Char)
    (hd : s.data = c :: l) (hc : c.isWhitespace = false) : pyStrip s ≠ "" := by
  unfold pyStrip
  rw [hd]
  intro h
  have h2 : (((c :: l).dropWhile Char.isWhitespace).reverse.dropWhile
      Char.isWhitespace).reverse = [] := by
    have h3 := congrArg String.data h
    simpa using h3
  rw [List.reverse_eq_nil_iff] at h2
  have h4 : (c :: l).dropWhile Char.isWhitespace = c :: l := by
    simp [List.dropWhile_cons, hc]
  rw [h4] at h2
  have h5 := List.dropWhile_eq_nil_iff.mp h2 c (by simp)
  rw [hc] at h5
  simp at h5

theorem brace_data : ("\x7b" : String).data = [Char.ofNat 123] := by decide

theorem pyStrElem_data (fe : FileElement) :
    (pyStrElem fe).data = Char.ofNat 123 :: (pyStrElemRest fe).data := by
  unfold pyStrElem
  rw [String.data_append, brace_data]
  rfl

/-- The branch condition of line 251: the stringified last file element,
stripped, is never empty — a dict's string form starts with a brace. -/
theorem videoUrl_ne (fe : FileElement) : pyStrip (pyStrElem fe) ≠ "" :=
  pyStrip_ne_empty _ _ _ (pyStrElem_data fe) (by decide)

theorem realExtract_result (pageUrl vid : String) (resp : Nat → ViewData)
    (m3 : String → List Format) (inf : Bool) (d : ViewData)
    (h : (vodLoop pageUrl vid resp).outcome = .succeeded d) :
    (realExtract pageUrl vid resp m3 inf).result = buildRecord vid d m3 inf := by
  simp [realExtract, h, extractResultOf]

theorem buildRecord_multi (vid : String) (d : ViewData) (m3 : String → List Format)
    (inf : Bool) (fe : FileElement) (hl : d.files.getLast? = some (some fe)) :
    buildRecord vid d m3 inf =
      (match entriesCalc vid d m3 inf with
       | none => .crashed "TypeError: null file element"
       | some es => .multiRec (mkMultiInfo vid d es)) := by
  unfold buildRecord
  simp only [hl]
  rw [if_pos (videoUrl_ne fe)]

/-! ### C1 -/

/-- C1 (amended): when both view-info responses carry flag `ADULT` and the
deletion sentinel never appears, the loop issues exactly 2 requests and
fails with the Restricted failure (the credential-prompt message of lines
212–216), which the spec's taxonomy does not class as Unresolvable; it
never issues a third request. -/
theorem c1_two_adult_restricted (pageUrl vid : String) (resp : Nat → ViewData)
    (h0 : (resp 0).flag = "ADULT") (h1 : (resp 1).flag = "ADULT")
    (hc0 : ¬ (resp 0).code = some (-6221 : Int))
    (hc1 : ¬ (resp 1).code = some (-6221 : Int)) :
    (vodLoop pageUrl vid resp).requests.length = 2 ∧
    (vodLoop pageUrl vid resp).outcome = .failedWith .restricted ∧
    Failure.isUnresolvable .restricted = false := by
  have e : vodLoop pageUrl vid resp =
      { requests := [stdReq pageUrl vid, stdReq pageUrl vid]
        queries := [mkQuery vid (resp 0) false false, mkQuery vid (resp 1) false true]
        warnings := 0
        outcome := .failedWith .restricted } := by
    unfold vodLoop
    simp +decide [vodLoopAux, h0, h1, hc0, hc1]
  rw [e]
  refine ⟨rfl, rfl, rfl⟩

/-- C1 counterexample: a concrete run in which both view-info responses
carry flag `ADULT` and the sentinel never appears.  The loop issues
exactly 2 requests, but the failure it raises is the Restricted one
(credential prompt), not an Unresolvable failure as the claim states. -/
theorem c1_counterexample :
    (c1Resp 0).flag = "ADULT" ∧ (c1Resp 1).flag = "ADULT" ∧
    ¬ (c1Resp 0).code = some (-6221 : Int) ∧ ¬ (c1Resp 1).code = some (-6221 : Int) ∧
    (vodLoop "http://page" "2" c1Resp).requests.length = 2 ∧
    (vodLoop "http://page" "2" c1Resp).outcome = .failedWith .restricted ∧
    Failure.isUnresolvable .restricted = false := by
  decide

/-- Witness for the amended C1 theorem at a concrete input. -/
theorem c1_two_adult_restricted_witness :
    ((c1Resp 0).flag = "ADULT" ∧ (c1Resp 1).flag = "ADULT") ∧
    ((vodLoop "u" "2" c1Resp).requests.length = 2 ∧
     (vodLoop "u" "2" c1Resp).outcome = .failedWith .restricted ∧
     Failure.isUnresolvable .restricted = false) :=
  ⟨⟨rfl, rfl⟩, c1_two_adult_restricted "u" "2" c1Resp rfl rfl (by decide) (by decide)⟩

/-! ### C3 -/

/-- Behaviour of a final attempt (fuel 1) whose response passes the
sentinel check: it issues exactly one request, and warns exactly when the
flag is `PARTIAL_ADULT`. -/
theorem vodLoopAux_one (pageUrl vid : String) (resp : Nat → ViewData) (idx : Nat)
    (pv av : Bool) (hc : ¬ (resp idx).code = some (-6221 : Int)) :
    (vodLoopAux pageUrl vid resp idx 1 pv av).requests = [stdReq pageUrl vid] ∧
    (vodLoopAux pageUrl vid resp idx 1 pv av).warnings =
      (if (resp idx).flag = "PARTIAL_ADULT" then 1 else 0) := by
  by_cases hs : (resp idx).flag = "SUCCEED"
  · simp +decide [vodLoopAux, hc, hs]
  · by_cases hp : (resp idx).flag = "PARTIAL_ADULT"
    · simp +decide [vodLoopAux, hc, hs, hp]
    · by_cases ha : (resp idx).flag = "ADULT"
      · cases av <;> simp +decide [vodLoopAux, hc, hs, hp, ha]
      · simp +decide [vodLoopAux, hc, hs, hp, ha]

/-- C3 (amended): when the first view-info response carries
`PARTIAL_ADULT` (and not the sentinel), the resolver retries exactly once
— the loop issues exactly the two identical requests, whose body never
carries a `partialView` entry: the all-ages modifier is only recorded in
the dead local query table (where `partialView=SKIP_ADULT` does appear for
the retry attempt).  It warns once, and a second time when the retried
response is again `PARTIAL_ADULT`. -/
theorem c3_partial_adult_retry (pageUrl vid : String) (resp : Nat → ViewData)
    (h0 : (resp 0).flag = "PARTIAL_ADULT")
    (hc0 : ¬ (resp 0).code = some (-6221 : Int)) :
    (vodLoop pageUrl vid resp).requests = [stdReq pageUrl vid, stdReq pageUrl vid] ∧
    (∀ kv ∈ (stdReq pageUrl vid).body, kv.1 ≠ "partialView") ∧
    (vodLoop pageUrl vid resp).warnings =
      (if ¬ (resp 1).code = some (-6221 : Int) ∧ (resp 1).flag = "PARTIAL_ADULT"
       then 2 else 1) ∧
    ("partialView", "SKIP_ADULT") ∈ mkQuery vid (resp 1) true false := by
  have hbody : ∀ kv ∈ (stdReq pageUrl vid).body, kv.1 ≠ "partialView" := by
    intro kv hkv
    simp [stdReq] at hkv
    rcases hkv with h | h <;> subst h
    · show "nTitleNo" ≠ "partialView"
      decide
    · decide
  have hq : ("partialView", "SKIP_ADULT") ∈ mkQuery vid (resp 1) true false := by
    simp [mkQuery]
  by_cases hc1 : (resp 1).code = some (-6221 : Int)
  · refine ⟨?_, hbody, ?_, hq⟩
    · unfold vodLoop
      simp +decide [vodLoopAux, h0, hc0, hc1]
    · unfold vodLoop
      simp +decide [vodLoopAux, h0, hc0, hc1]
  · by_cases h1 : (resp 1).flag = "PARTIAL_ADULT"
    · refine ⟨?_, hbody, ?_, hq⟩
      · unfold vodLoop
        simp +decide [vodLoopAux, h0, hc0, hc1, h1]
      · unfold vodLoop
        simp +decide [vodLoopAux, h0, hc0, hc1, h1]
    · have key : (vodLoop pageUrl vid resp).requests =
          stdReq pageUrl vid :: (vodLoopAux pageUrl vid resp 1 1 true false).requests ∧
          (vodLoop pageUrl vid resp).warnings =
            (vodLoopAux pageUrl vid resp 1 1 true false).warnings + 1 := by
        constructor <;> simp +decide [vodLoop, vodLoopAux, h0, hc0]
      obtain ⟨hr, hw⟩ := vodLoopAux_one pageUrl vid resp 1 true false hc1
      refine ⟨?_, hbody, ?_, hq⟩
      · rw [key.1, hr]
      · rw [key.2, hw]
        simp [h1, hc1]

/-- C3 counterexample: a concrete run whose first response is
`PARTIAL_ADULT` (and whose retried response is as well): the resolver
emits two warnings, not exactly one, and the retried request is identical
to the first — no request body carries a `partialView` parameter. -/
theorem c3_counterexample :
    (c3Resp 0).flag = "PARTIAL_ADULT" ∧ ¬ (c3Resp 0).code = some (-6221 : Int) ∧
    (vodLoop "http://page" "3" c3Resp).warnings = 2 ∧
    (vodLoop "http://page" "3" c3Resp).requests =
      [stdReq "http://page" "3", stdReq "http://page" "3"] ∧
    (((stdReq "http://page" "3").body.map Prod.fst).contains "partialView") = false := by
  decide

/-! ### C2 -/

theorem getLast?_map_some :
    ∀ (fes : List FileElement), fes ≠ [] →
      ∃ fe : FileElement, (fes.map Option.some).getLast? = some (some fe) := by
  intro fes
  induction fes with
  | nil => intro h; exact absurd rfl h
  | cons fe rest ih =>
    intro _
    cases rest with
    | nil => exact ⟨fe, rfl⟩
    | cons fe2 r2 =>
      obtain ⟨x, hx⟩ := ih (by simp)
      refine ⟨x, ?_⟩
      rw [List.map_cons, List.map_cons, List.getLast?_cons_cons]
      rw [List.map_cons] at hx
      exact hx

/-- Over a files list with no null element, the per-file loop never
crashes, and its output is characterised by the spec-side id list and
kept-count. -/
theorem processFiles_spec (vid title : String) (one : Bool) (com : Common)
    (m3 : String → List Format) (inf : Bool) :
    ∀ (fes : List FileElement) (n : Nat),
      ∃ es : List Entry,
        processFiles vid title one com m3 inf (fes.map Option.some) n = some es ∧
        es.map Entry.id = specIds vid m3 inf fes n ∧
        es.length = (fes.filter (specKept m3 inf)).length := by
  intro fes
  induction fes with
  | nil => exact fun _ => ⟨[], rfl, rfl, rfl⟩
  | cons fe rest ih =>
    intro n
    obtain ⟨es, he, hid, hlen⟩ := ih (n + 1)
    cases hu : urlOrNone fe.file with
    | none =>
      refine ⟨es, ?_, ?_, ?_⟩
      · rw [List.map_cons]
        simpa [processFiles, hu] using he
      · rw [hid]; simp [specIds, specKept, hu]
      · rw [hlen]; simp [List.filter_cons, specKept, hu]
    | some u =>
      by_cases hk : ((fmtOf m3 u).isEmpty && !inf) = true
      · obtain ⟨hE, hI2⟩ : (fmtOf m3 u).isEmpty = true ∧ (!inf) = true := by
          simpa using hk
        have hI : inf = false := by
          cases inf
          · rfl
          · simp at hI2
        have hkept : specKept m3 inf fe = false := by
          simp [specKept, hu, hE, hI]
        refine ⟨es, ?_, ?_, ?_⟩
        · rw [List.map_cons]
          simpa [processFiles, hu, hk] using he
        · rw [hid]; simp [specIds, hkept]
        · rw [hlen]; simp [List.filter_cons, hkept]
      · have hkept : specKept m3 inf fe = true := by
          simp only [specKept, hu]
          cases hEE : (fmtOf m3 u).isEmpty <;> cases hII : inf <;> simp_all
        refine ⟨mkEntry vid title one com m3 fe u n :: es, ?_, ?_, ?_⟩
        · rw [List.map_cons]
          simp [processFiles, hu, hk, he]
        · simp [specIds, hkept, mkEntry, hid]
        · simp [List.filter_cons, hkept, hlen]

/-- C2 (amended): a successful VOD resolution whose file list consists of
present (non-null) objects always takes the multi-part branch — whatever
the file count or URL scheme, because the branch condition stringifies a
dict, which is never empty; in particular a single file with a
non-manifest URL yields a multi-part record containing exactly one entry
with exactly one progressive-download source (not a single-item record as
the claim states). -/
theorem c2_always_multi (pageUrl vid : String) (resp : Nat → ViewData)
    (m3 : String → List Format) (inf : Bool) :
    (∀ (d : ViewData) (fes : List FileElement),
        (vodLoop pageUrl vid resp).outcome = .succeeded d →
        d.files = fes.map Option.some → fes ≠ [] →
        (realExtract pageUrl vid resp m3 inf).result.isMulti = true) ∧
    (∀ (d : ViewData) (fe : FileElement) (u : String),
        (vodLoop pageUrl vid resp).outcome = .succeeded d →
        d.files = [some fe] →
        urlOrNone fe.file = some u → determineExt u ≠ "m3u8" →
        resultEntryFormats (realExtract pageUrl vid resp m3 inf).result =
          some [[{ url := u, format_id := "http" }]]) := by
  constructor
  · intro d fes hout hfiles hne
    rw [realExtract_result pageUrl vid resp m3 inf d hout]
    obtain ⟨fe, hfe⟩ := getLast?_map_some fes hne
    rw [buildRecord_multi vid d m3 inf fe (by rw [hfiles]; exact hfe)]
    obtain ⟨es, he, _, _⟩ := processFiles_spec vid d.title
      ((fes.map Option.some).length == 1) (commonOf d) m3 inf fes 1
    have hec : entriesCalc vid d m3 inf = some es := by
      unfold entriesCalc
      rw [hfiles]
      exact he
    rw [hec]
    rfl
  · intro d fe u hout hfiles hu hext
    rw [realExtract_result pageUrl vid resp m3 inf d hout]
    rw [buildRecord_multi vid d m3 inf fe (by rw [hfiles]; rfl)]
    have hfmt : fmtOf m3 u = [{ url := u, format_id := "http" }] := by
      simp [fmtOf, hext]
    have hec : entriesCalc vid d m3 inf =
        some [mkEntry vid d.title (d.files.length == 1) (commonOf d) m3 fe u 1] := by
      unfold entriesCalc
      rw [hfiles]
      simp [processFiles, hu, hfmt]
    rw [hec]
    simp [resultEntryFormats, resultEntries, mkMultiInfo, mkEntry, hfmt]

/-- C2 counterexample: a successful resolution with exactly one file whose
URL has no manifest scheme and no `mp4:` marker.  The claim requires a
single-item record here; the code produces a multi-part record. -/
theorem c2_counterexample :
    (c2Resp 0).files = [some c2fe] ∧
    urlOrNone c2fe.file = some "https://example.com/video.mp4" ∧
    determineExt "https://example.com/video.mp4" ≠ "m3u8" ∧
    containsSub "https://example.com/video.mp4" "mp4:" = false ∧
    (realExtract "http://page" "7" c2Resp noM3 false).result.isSingle = false ∧
    (realExtract "http://page" "7" c2Resp noM3 false).result.isMulti = true := by
  decide

/-- Witness for the amended C2 theorem at a concrete input. -/
theorem c2_always_multi_witness :
    resultEntryFormats (realExtract "u" "7" c2Resp noM3 false).result =
      some [[{ url := "https://example.com/video.mp4", format_id := "http" }]] :=
  (c2_always_multi "u" "7" c2Resp noM3 false).2 (c2Resp 0) c2fe
    "https://example.com/video.mp4" (by decide) rfl (by decide) (by decide)

/-- Witness for the amended C3 theorem at a concrete input whose retried
response is `SUCCEED`. -/
theorem c3_partial_adult_retry_witness :
    ((c3OnceResp 0).flag = "PARTIAL_ADULT" ∧ ¬ (c3OnceResp 0).code = some (-6221 : Int)) ∧
    ((vodLoop "u" "3" c3OnceResp).requests = [stdReq "u" "3", stdReq "u" "3"] ∧
     (∀ kv ∈ (stdReq "u" "3").body, kv.1 ≠ "partialView") ∧
     (vodLoop "u" "3" c3OnceResp).warnings =
       (if ¬ (c3OnceResp 1).code = some (-6221 : Int) ∧ (c3OnceResp 1).flag = "PARTIAL_ADULT"
        then 2 else 1) ∧
     ("partialView", "SKIP_ADULT") ∈ mkQuery "3" (c3OnceResp 1) true false) :=
  ⟨⟨rfl, by decide⟩, c3_partial_adult_retry "u" "3" c3OnceResp rfl (by decide)⟩

/-! ### C4 -/

/-- C4 (amended): a successful VOD resolution whose per-file loop keeps no
entry returns an empty multi-part record — an empty success — rather than
failing with an error; error-on-empty is left to the host framework. -/
theorem c4_empty_entries_returned (pageUrl vid : String) (resp : Nat → ViewData)
    (m3 : String → List Format) (inf : Bool) (d : ViewData) (fe : FileElement)
    (hout : (vodLoop pageUrl vid resp).outcome = .succeeded d)
    (hl : d.files.getLast? = some (some fe))
    (he : entriesCalc vid d m3 inf = some []) :
    (realExtract pageUrl vid resp m3 inf).result = .multiRec (mkMultiInfo vid d []) ∧
    (realExtract pageUrl vid resp m3 inf).result.isFailed = false ∧
    (realExtract pageUrl vid resp m3 inf).result.isCrashed = false := by
  rw [realExtract_result pageUrl vid resp m3 inf d hout]
  rw [buildRecord_multi vid d m3 inf fe hl]
  rw [he]
  exact ⟨rfl, rfl, rfl⟩

/-- C4 counterexample: a resolution whose only file has an invalid URL
yields a record with zero stream sources, and the resolver returns it as
an empty multi-part success instead of failing with an error. -/
theorem c4_counterexample :
    urlOrNone c4fe.file = none ∧
    (realExtract "http://page" "4" c4Resp noM3 false).result =
      .multiRec (mkMultiInfo "4" (c4Resp 0) []) ∧
    (realExtract "http://page" "4" c4Resp noM3 false).result.isFailed = false ∧
    resultEntryCount (realExtract "http://page" "4" c4Resp noM3 false).result = some 0 := by
  decide

/-- Witness for the amended C4 theorem at a concrete input. -/
theorem c4_empty_entries_returned_witness :
    (entriesCalc "4" (c4Resp 0) noM3 false = some []) ∧
    ((realExtract "w4" "4" c4Resp noM3 false).result =
       .multiRec (mkMultiInfo "4" (c4Resp 0) []) ∧
     (realExtract "w4" "4" c4Resp noM3 false).result.isFailed = false ∧
     (realExtract "w4" "4" c4Resp noM3 false).result.isCrashed = false) :=
  ⟨by decide,
   c4_empty_entries_returned "w4" "4" c4Resp noM3 false (c4Resp 0) c4fe
     (by decide) (by decide) (by decide)⟩

/-! ### C5 -/

/-- C5 (amended): a single-file response whose URL contains `mp4:` is
handled by the multi-part branch as one progressive source keeping the
full unsplit URL, with no push-stream marking and no single-item record;
the `mp4:`-split code runs only when the stringified last file element is
empty, and there the two-value unpacking always fails (an empty string
splits into a single part). -/
theorem c5_mp4_url_not_split (pageUrl vid : String) (resp : Nat → ViewData)
    (m3 : String → List Format) (inf : Bool) :
    (∀ (d : ViewData) (fe : FileElement) (u : String),
        (vodLoop pageUrl vid resp).outcome = .succeeded d →
        d.files = [some fe] →
        urlOrNone fe.file = some u →
        containsSub u "mp4:" = true →
        determineExt u ≠ "m3u8" →
        resultEntryFormats (realExtract pageUrl vid resp m3 inf).result =
          some [[{ url := u, format_id := "http" }]] ∧
        (realExtract pageUrl vid resp m3 inf).result.isSingle = false) ∧
    (∀ (vid2 : String) (d2 : ViewData) (m32 : String → List Format),
        (singleBranch vid2 d2 "" m32).isCrashed = true) := by
  constructor
  · intro d fe u hout hfiles hu _ hext
    have hfmt : fmtOf m3 u = [{ url := u, format_id := "http" }] := by
      simp [fmtOf, hext]
    have hec : entriesCalc vid d m3 inf =
        some [mkEntry vid d.title (d.files.length == 1) (commonOf d) m3 fe u 1] := by
      unfold entriesCalc
      rw [hfiles]
      simp [processFiles, hu, hfmt]
    rw [realExtract_result pageUrl vid resp m3 inf d hout]
    rw [buildRecord_multi vid d m3 inf fe (by rw [hfiles]; rfl)]
    rw [hec]
    constructor
    · simp [resultEntryFormats, resultEntries, mkMultiInfo, mkEntry, hfmt]
    · rfl
  · intro vid2 d2 m32
    rfl

/-- C5 counterexample: a single-file response whose URL contains `mp4:`.
The resolver neither splits the URL nor marks a push-stream: it emits a
multi-part record whose only entry holds one progressive source with the
full URL. -/
theorem c5_counterexample :
    containsSub "rtmp://example.com/app/mp4:video0" "mp4:" = true ∧
    urlOrNone c5fe.file = some "rtmp://example.com/app/mp4:video0" ∧
    (c5Resp 0).files = [some c5fe] ∧
    resultEntryFormats (realExtract "http://page" "5" c5Resp noM3 false).result =
      some [[{ url := "rtmp://example.com/app/mp4:video0", format_id := "http" }]] ∧
    (realExtract "http://page" "5" c5Resp noM3 false).result.isSingle = false := by
  decide

/-- Witness for the amended C5 theorem at a concrete input. -/
theorem c5_mp4_url_not_split_witness :
    resultEntryFormats (realExtract "w5" "5" c5Resp noM3 false).result =
      some [[{ url := "rtmp://example.com/app/mp4:video0", format_id := "http" }]] ∧
    (realExtract "w5" "5" c5Resp noM3 false).result.isSingle = false :=
  (c5_mp4_url_not_split "w5" "5" c5Resp noM3 false).1 (c5Resp 0) c5fe
    "rtmp://example.com/app/mp4:video0" (by decide) rfl (by decide) (by decide) (by decide)

/-! ### C6 -/

/-- C6 (amended): for a multi-file response (all file elements present),
the output entry count equals the number of file entries with a valid URL
minus those yielding zero stream sources — except that the permissive
zero-format option keeps only zero-source entries whose URL is valid
(invalid-URL entries are dropped regardless); each output entry's id is
its key when non-empty, else the video id, an underscore, and the entry's
1-based position among all input entries. -/
theorem c6_count_and_ids (pageUrl vid : String) (resp : Nat → ViewData)
    (m3 : String → List Format) (inf : Bool) (d : ViewData) (fes : List FileElement)
    (hout : (vodLoop pageUrl vid resp).outcome = .succeeded d)
    (hfiles : d.files = fes.map Option.some) (hne : fes ≠ []) :
    resultEntryIds (realExtract pageUrl vid resp m3 inf).result =
      some (specIds vid m3 inf fes 1) ∧
    resultEntryCount (realExtract pageUrl vid resp m3 inf).result =
      some ((fes.filter (specKept m3 inf)).length) := by
  rw [realExtract_result pageUrl vid resp m3 inf d hout]
  obtain ⟨fe, hfe⟩ := getLast?_map_some fes hne
  rw [buildRecord_multi vid d m3 inf fe (by rw [hfiles]; exact hfe)]
  obtain ⟨es, he, hid, hlen⟩ := processFiles_spec vid d.title
    ((fes.map Option.some).length == 1) (commonOf d) m3 inf fes 1
  have hec : entriesCalc vid d m3 inf = some es := by
    unfold entriesCalc
    rw [hfiles]
    exact he
  rw [hec]
  constructor
  · simp [resultEntryIds, resultEntries, mkMultiInfo, hid]
  · simp [resultEntryCount, resultEntries, mkMultiInfo, hlen]

/-- C6 counterexample: two input file entries, permissive mode set, the
second entry's URL invalid.  The claim says zero-source entries are kept
under the permissive option (output count 2); the code still drops the
invalid-URL entry and outputs 1 entry. -/
theorem c6_counterexample :
    (c6Resp 0).files.length = 2 ∧
    urlOrNone c6fe2.file = none ∧
    resultEntryCount (realExtract "http://page" "6" c6Resp noM3 true).result = some 1 ∧
    resultEntryIds (realExtract "http://page" "6" c6Resp noM3 true).result = some ["6_1"] := by
  decide

/-- Witness for the amended C6 theorem at a concrete input. -/
theorem c6_count_and_ids_witness :
    resultEntryIds (realExtract "w6" "6" c6Resp noM3 true).result =
      some (specIds "6" noM3 true [c6fe1, c6fe2] 1) ∧
    resultEntryCount (realExtract "w6" "6" c6Resp noM3 true).result =
      some (([c6fe1, c6fe2].filter (specKept noM3 true)).length) :=
  c6_count_and_ids "w6" "6" c6Resp noM3 true (c6Resp 0) [c6fe1, c6fe2]
    (by decide) rfl (by decide)

/-! ### C7 -/

/-- C7: for a file-entry key starting with 8 digits followed by an
underscore, whose digit token parses to a calendar date, the upload date
kept in the output record is the token exactly when the parsed year lies
in [2000, 2100); a year below 2000 or at least 2100 discards the date. -/
theorem c7_upload_date_year_range (key d8 : String) (dt : YMDDate)
    (h1 : searchDate8 key = some d8) (h2 : parseDate8 d8 = some dt) :
    uploadDateOf key = (if dt.year < 2000 || 2100 ≤ dt.year then none else some d8) := by
  simp only [uploadDateOf, unifiedStrdate8, h1, h2, Option.isSome_some, if_true]

/-- Witness for C7: a key whose token parses to year 1999 is discarded,
and one parsing to year 2017 is kept. -/
theorem c7_upload_date_year_range_witness :
    (searchDate8 "19990101_ABC_1" = some "19990101" ∧
     parseDate8 "19990101" = some ⟨1999, 1, 1⟩ ∧
     uploadDateOf "19990101_ABC_1" =
       (if (1999 : Nat) < 2000 || 2100 ≤ (1999 : Nat) then none else some "19990101")) ∧
    (searchDate8 "20170411_XYZ_2" = some "20170411" ∧
     parseDate8 "20170411" = some ⟨2017, 4, 11⟩ ∧
     uploadDateOf "20170411_XYZ_2" =
       (if (2017 : Nat) < 2000 || 2100 ≤ (2017 : Nat) then none else some "20170411")) :=
  ⟨⟨by decide, by decide,
    c7_upload_date_year_range "19990101_ABC_1" "19990101" ⟨1999, 1, 1⟩ (by decide) (by decide)⟩,
   ⟨by decide, by decide,
    c7_upload_date_year_range "20170411_XYZ_2" "20170411" ⟨2017, 4, 11⟩ (by decide) (by decide)⟩⟩

/-! ### C8 -/

/-- C8: a live resolution in which neither the channel response nor the
caller's URL supplies a (truthy) broadcast number fails with the NotLive
error before the quality loop — zero access-token requests and zero
CDN-assignment requests are issued. -/
theorem c8_no_bno_notlive (bidUrl : String) (bnoUrl : Option String)
    (password : Option String) (chResp : Option ChannelWrap) (orcl : LiveOracles)
    (h1 : falsyO (channelInfoOf chResp).BNO = true) (h2 : falsyO bnoUrl = true) :
    (liveExtract bidUrl bnoUrl password chResp orcl).result = .error .notLive ∧
    (liveExtract bidUrl bnoUrl password chResp orcl).aidRequests = [] ∧
    (liveExtract bidUrl bnoUrl password chResp orcl).streamRequests = [] := by
  have hb : falsyO (pyOrOpt (channelInfoOf chResp).BNO bnoUrl) = true := by
    unfold pyOrOpt
    rw [h1]
    simpa using h2
  refine ⟨?_, ?_, ?_⟩ <;> simp [liveExtract, hb]

/-- Witness for C8 at a concrete input (failed channel lookup, no URL
broadcast number). -/
theorem c8_no_bno_notlive_witness :
    (falsyO (channelInfoOf (none : Option ChannelWrap)).BNO = true ∧
     falsyO (none : Option String) = true) ∧
    ((liveExtract "bj" none none none c8Orcl).result = .error .notLive ∧
     (liveExtract "bj" none none none c8Orcl).aidRequests = [] ∧
     (liveExtract "bj" none none none c8Orcl).streamRequests = []) :=
  ⟨⟨rfl, rfl⟩, c8_no_bno_notlive "bj" none none none c8Orcl rfl rfl⟩

/-! ### C9 -/

/-- C9: when the channel lookup fails or comes back empty (the channel
object degrades to all-`none`), resolution proceeds on the URL-supplied
handle and broadcast number — NotLive exactly when the URL carries no
truthy broadcast number, the resolved record keeps the URL values — and
the password-required failure is never raised. -/
theorem c9_failed_lookup (bidUrl : String) (bnoUrl : Option String)
    (password : Option String) (chResp : Option ChannelWrap) (orcl : LiveOracles)
    (h : channelInfoOf chResp = emptyChannel) :
    (falsyO bnoUrl = true →
       (liveExtract bidUrl bnoUrl password chResp orcl).result = .error .notLive) ∧
    (∀ b, bnoUrl = some b → falsyO bnoUrl = false →
       resultId (liveExtract bidUrl bnoUrl password chResp orcl).result = some b ∧
       resultUploaderId (liveExtract bidUrl bnoUrl password chResp orcl).result =
         some bidUrl) ∧
    (liveExtract bidUrl bnoUrl password chResp orcl).result ≠ .error .passwordRequired := by
  have e1 : pyOrOpt (none : Option String) bnoUrl = bnoUrl := rfl
  refine ⟨?_, ?_, ?_⟩
  · intro hf
    simp [liveExtract, h, emptyChannel, e1, hf]
  · intro b hb hf
    subst hb
    have e2 : pyOrOpt (none : Option String) (some b) = some b := rfl
    constructor <;>
      simp [liveExtract, h, emptyChannel, e2, hf, resultId, resultUploaderId, pyOrStr]
  · by_cases hf : falsyO bnoUrl = true
    · simp [liveExtract, h, emptyChannel, e1, hf]
    · have hf2 : falsyO bnoUrl = false := by
        cases hv : falsyO bnoUrl
        · rfl
        · exact absurd hv hf
      simp [liveExtract, h, emptyChannel, e1, hf2]

/-- Witness for C9 at a concrete input: failed lookup, URL-supplied
broadcast number. -/
theorem c9_failed_lookup_witness :
    (channelInfoOf (none : Option ChannelWrap) = emptyChannel) ∧
    ((falsyO (some "237852185") = true →
        (liveExtract "pyh3646" (some "237852185") none none c9Orcl).result =
          .error .notLive) ∧
     (∀ b, some "237852185" = some b → falsyO (some "237852185") = false →
        resultId (liveExtract "pyh3646" (some "237852185") none none c9Orcl).result =
          some b ∧
        resultUploaderId
            (liveExtract "pyh3646" (some "237852185") none none c9Orcl).result =
          some "pyh3646") ∧
     (liveExtract "pyh3646" (some "237852185") none none c9Orcl).result ≠
       .error .passwordRequired) :=
  ⟨rfl, c9_failed_lookup "pyh3646" (some "237852185") none none c9Orcl rfl⟩

/-! ### C10 -/

/-- C10: in the multi-part branch a file entry whose `file` field is
null/missing or not a valid URL is silently skipped — it contributes no
output entry and no error — for either value of the permissive
zero-format option; the permissive option only rescues entries whose URL
is valid but whose formats come back empty. -/
theorem c10_invalid_url_skipped (vid title : String) (one : Bool) (com : Common)
    (m3 : String → List Format) (fe : FileElement) (rest : List (Option FileElement))
    (n : Nat) :
    (urlOrNone fe.file = none →
       ∀ inf : Bool, processFiles vid title one com m3 inf (some fe :: rest) n =
         processFiles vid title one com m3 inf rest (n + 1)) ∧
    (∀ u, urlOrNone fe.file = some u → (fmtOf m3 u).isEmpty = true →
       processFiles vid title one com m3 false (some fe :: rest) n =
         processFiles vid title one com m3 false rest (n + 1) ∧
       processFiles vid title one com m3 true (some fe :: rest) n =
         (processFiles vid title one com m3 true rest (n + 1)).map
           (mkEntry vid title one com m3 fe u n :: ·)) := by
  constructor
  · intro hu inf
    simp [processFiles, hu]
  · intro u hu hE
    constructor
    · simp [processFiles, hu, hE]
    · simp [processFiles, hu, hE]

/-- Witness for C10 at a concrete input: a null `file` field is skipped
even under the permissive option. -/
theorem c10_invalid_url_skipped_witness :
    (urlOrNone c10fe.file = none) ∧
    processFiles "9" "t" true c10com noM3 true [some c10fe] 1 =
      processFiles "9" "t" true c10com noM3 true [] 2 :=
  ⟨rfl, (c10_invalid_url_skipped "9" "t" true c10com noM3 c10fe [] 1).1 rfl true⟩
